import Mathlib

/-!
Verification of the `hardware_arv` graphics mapper HAL services
(`src/graphics/mapper/2.0/Mapper.cpp` and `src/graphics/mapper/4.0/Mapper.cpp`)
against their natural-language specification.

The mapper methods are thin validate-then-forward shims over native driver
libraries (a GBM module for 2.0, a DRM-gralloc binding for 4.0).  Each method
is embedded as a pure function that takes a `DriverEnv` — an oracle record
giving the results of the external driver calls (`gbm_mod_*`, `drm_*`,
`native_handle_clone`, `dup`, the gralloc4 descriptor encoder) — and returns
the values passed to the HIDL callback together with a trace of the
observable external events (fence waits and driver calls), so that ordering
and "no driver call happens" properties can be stated.
-/

namespace HardwareArv

/-- The HIDL mapper error enumeration (`Error` in both `IMapper` versions). -/
inductive Error
  | NONE
  | BAD_DESCRIPTOR
  | BAD_BUFFER
  | BAD_VALUE
  | NO_RESOURCES
  | UNSUPPORTED
  deriving DecidableEq, Repr

/-- A non-null `native_handle_t`: fd count, int count and the data array
(fds first).  A nullable handle pointer is `Option NativeHandle`. -/
structure NativeHandle where
  numFds : Nat
  numInts : Nat
  data : List Int
  deriving DecidableEq, Repr

/-- Model of `IMapper::BufferDescriptorInfo`: width/height/layerCount are `uint32_t`,
format is the `PixelFormat` enum (an `int32_t`), usage a `uint64_t` bitmask. -/
structure BufferDescriptorInfo where
  width : Nat
  height : Nat
  layerCount : Nat
  format : Int
  usage : Nat
  deriving DecidableEq, Repr

/-- A `BufferDescriptor` is an opaque encoded word/byte sequence
(`hidl_vec<uint32_t>` in 2.0, `hidl_vec<uint8_t>` in 4.0). -/
def BufferDescriptor := List Nat
deriving instance DecidableEq, Repr for BufferDescriptor

/-- Model of `IMapper::Rect`: four `int32_t` fields. -/
structure Rect where
  left : Int
  top : Int
  width : Int
  height : Int
  deriving DecidableEq, Repr

/-- Model of `struct android_ycbcr` as filled in by `gbm_mod_lock_ycbcr`
(pointers and strides modelled as numbers). -/
structure AndroidYcbcr where
  y : Nat
  cb : Nat
  cr : Nat
  ystride : Nat
  cstride : Nat
  chroma_step : Nat
  deriving DecidableEq, Repr

/-- HIDL `YCbCrLayout` returned by `lockYCbCr`. -/
structure YCbCrLayout where
  y : Nat
  cb : Nat
  cr : Nat
  yStride : Nat
  cStride : Nat
  chromaStep : Nat
  deriving DecidableEq, Repr

/-- Zero value `YCbCrLayout\x7b\x7d` — the zero-initialised layout used on the error paths. -/
def YCbCrLayout.empty : YCbCrLayout :=
  { y := 0, cb := 0, cr := 0, yStride := 0, cStride := 0, chromaStep := 0 }

/-- Observable external events of a mapper call: the blocking fence wait and
the calls into the native driver libraries, in program order. -/
inductive Event
  | waitFence (fd : Int)
  | gbmRegister (h : Option NativeHandle)
  | gbmUnregister (h : NativeHandle)
  | gbmLock (h : NativeHandle) (usage left top width height : Int)
  | gbmLockYcbcr (h : NativeHandle) (usage left top width height : Int)
  | gbmUnlock (h : NativeHandle)
  | drmRegister (h : Option NativeHandle)
  | drmFree (h : NativeHandle)
  | drmLock (h : NativeHandle)
  | drmUnlock (h : NativeHandle)
  deriving DecidableEq, Repr

/-- Oracle record for the external calls the mapper forwards to: each field
gives the result the native library would return for a given argument.
`native_handle_clone` and the 4.0 gralloc4 encoder may fail (`none`);
the `gbm_mod_*`/`drm_*` calls return a C `int` status (0 = success), the
lock calls additionally produce the mapped data (a pointer, modelled as a
number). -/
structure DriverEnv where
  cloneR : NativeHandle → Option NativeHandle
  dupR : Int → Int
  gbmRegisterR : Option NativeHandle → Int
  gbmUnregisterR : NativeHandle → Int
  gbmLockR : NativeHandle → Int → Int → Int → Int → Int → Int × Nat
  gbmLockYcbcrR : NativeHandle → Int → Int → Int → Int → Int → Int × AndroidYcbcr
  gbmUnlockR : NativeHandle → Int
  drmRegisterR : Option NativeHandle → Int
  drmFreeR : NativeHandle → Int
  drmLockR : NativeHandle → Int × Nat
  drmUnlockR : NativeHandle → Int
  encodeBufferDescriptorInfoR : BufferDescriptorInfo → Option BufferDescriptor

/-! ### Usage masks (`BufferUsage` bit constants, AOSP values) -/

def BufferUsage.CPU_READ_MASK : Nat := 0xf
def BufferUsage.CPU_WRITE_MASK : Nat := 0xf <<< 4
def BufferUsage.GPU_TEXTURE : Nat := 1 <<< 8
def BufferUsage.GPU_RENDER_TARGET : Nat := 1 <<< 9
def BufferUsage.COMPOSER_OVERLAY : Nat := 1 <<< 11
def BufferUsage.COMPOSER_CLIENT_TARGET : Nat := 1 <<< 12
def BufferUsage.PROTECTED : Nat := 1 <<< 14
def BufferUsage.COMPOSER_CURSOR : Nat := 1 <<< 15
def BufferUsage.VIDEO_ENCODER : Nat := 1 <<< 16
def BufferUsage.CAMERA_OUTPUT : Nat := 1 <<< 17
def BufferUsage.CAMERA_INPUT : Nat := 1 <<< 18
def BufferUsage.RENDERSCRIPT : Nat := 1 <<< 20
def BufferUsage.VIDEO_DECODER : Nat := 1 <<< 22
def BufferUsage.SENSOR_DIRECT_DATA : Nat := 1 <<< 23
def BufferUsage.GPU_DATA_BUFFER : Nat := 1 <<< 24
def BufferUsage.VENDOR_MASK : Nat := 0xf <<< 28
def BufferUsage.VENDOR_MASK_HI : Nat := 0xffff <<< 48

/-- Model of `getValidBufferUsageMask()` — identical in both Mapper.cpp files. -/
def getValidBufferUsageMask : Nat :=
  BufferUsage.CPU_READ_MASK ||| BufferUsage.CPU_WRITE_MASK |||
  BufferUsage.GPU_TEXTURE ||| BufferUsage.GPU_RENDER_TARGET |||
  BufferUsage.COMPOSER_OVERLAY ||| BufferUsage.COMPOSER_CLIENT_TARGET |||
  BufferUsage.PROTECTED ||| BufferUsage.COMPOSER_CURSOR |||
  BufferUsage.VIDEO_ENCODER ||| BufferUsage.CAMERA_OUTPUT |||
  BufferUsage.CAMERA_INPUT ||| BufferUsage.RENDERSCRIPT |||
  BufferUsage.VIDEO_DECODER ||| BufferUsage.SENSOR_DIRECT_DATA |||
  BufferUsage.GPU_DATA_BUFFER ||| BufferUsage.VENDOR_MASK |||
  BufferUsage.VENDOR_MASK_HI

/-! ### Shared helpers -/

/-- Model of `static_cast<int32_t>` of a 64-bit unsigned value: truncate to 32 bits,
reinterpret as two's-complement. -/
def toInt32 (n : Nat) : Int :=
  let m : Nat := n % 2 ^ 32
  if m < 2 ^ 31 then (m : Int) else (m : Int) - 2 ^ 32

/-- Bitwise complement on 64-bit words (`~` on a `uint64_t`). -/
def not64 (m : Nat) : Nat := (2 ^ 64 - 1) ^^^ m

/-- The usage value handed to `gbm_mod_lock`/`gbm_mod_lock_ycbcr` in the 2.0
mapper: `static_cast<int32_t>(pUsage | cUsage)` where `pUsage` is `cpuUsage`
and `cUsage` is `cpuUsage & ~CPU_WRITE_MASK`. -/
def lockUsage (cpuUsage : Nat) : Int :=
  let pUsage := cpuUsage
  let cUsage := cpuUsage &&& not64 BufferUsage.CPU_WRITE_MASK
  toInt32 (pUsage ||| cUsage)

/-- Model of `getFenceFd` (identical static helper in both Mapper.cpp files): extracts
and dups the single fence fd of an acquire-fence handle; `-1` when the handle
is null or has no fd; `BAD_VALUE` when the handle has more than one fd;
`NO_RESOURCES` when `dup` fails. -/
def getFenceFd (env : DriverEnv) (fenceHandle : Option NativeHandle) :
    Except Error Int :=
  match fenceHandle with
  | none => Except.ok (-1)
  | some h =>
    if h.numFds > 1 then
      Except.error Error.BAD_VALUE
    else
      let fenceFd : Int := if h.numFds = 1 then h.data.headD (-1) else -1
      if 0 ≤ fenceFd then
        let d := env.dupR fenceFd
        if d < 0 then Except.error Error.NO_RESOURCES else Except.ok d
      else
        Except.ok fenceFd

/-- Model of `Fence::NO_FENCE->dup()`: `Fence::NO_FENCE` wraps fd `-1`, and
`::dup(-1)` fails returning `-1`, so the fd placed in the release-fence
handle is always `-1` (libui semantics, external to this repository). -/
def noFenceDup : Int := -1

/-- Model of `getFenceHandle` (identical static helper in both Mapper.cpp files):
wraps a non-negative fd into a 1-fd native handle, a null handle otherwise. -/
def getFenceHandle (fenceFd : Int) : Option NativeHandle :=
  if 0 ≤ fenceFd then some { numFds := 1, numInts := 0, data := [fenceFd] }
  else none

/-- Number of file descriptors carried by a (nullable) fence handle. -/
def handleFdCount : Option NativeHandle → Nat
  | none => 0
  | some h => h.numFds

/-! ### Mapper 2.0 (`src/graphics/mapper/2.0/Mapper.cpp`, GBM-backed) -/

/-- Model of `grallocEncodeBufferDescriptor` from the platform's passthrough header
(`GrallocBufferDescriptor.h`): a 7-word `hidl_vec<uint32_t>` holding a magic
version and the descriptor fields, each truncated to 32 bits.  External
platform helper; it cannot fail. -/
def grallocEncodeBufferDescriptor (info : BufferDescriptorInfo) :
    BufferDescriptor :=
  [ (103 <<< 24) ||| (98 <<< 16) ||| (100 <<< 8) ||| 1,
    info.width % 2 ^ 32,
    info.height % 2 ^ 32,
    info.layerCount % 2 ^ 32,
    (info.format % (2 ^ 32 : Int)).toNat,
    info.usage % 2 ^ 32,
    (info.usage >>> 32) % 2 ^ 32 ]

/-- Model of `V2_0::Mapper::createDescriptor`: validates the descriptor info and on
success encodes it; the callback receives the error and the descriptor
(empty unless encoding happened). -/
def createDescriptor2 (info : BufferDescriptorInfo) : Error × BufferDescriptor :=
  let error :=
    if info.width = 0 ∨ info.height = 0 ∨ info.layerCount = 0 then
      Error.BAD_VALUE
    else if info.layerCount ≠ 1 then
      Error.UNSUPPORTED
    else if info.format = 0 then
      Error.BAD_VALUE
    else
      Error.NONE
  if error = Error.NONE then (error, grallocEncodeBufferDescriptor info)
  else (error, [])

/-- Model of `V2_0::Mapper::importBuffer`: null raw handle → `BAD_BUFFER` with no
driver call; otherwise clone the handle (`NO_RESOURCES` on clone failure)
and register the clone (possibly null) with `gbm_mod_register`; a non-zero
register result frees the clone and reports `NO_RESOURCES`. -/
def importBuffer2 (env : DriverEnv) (rawHandle : Option NativeHandle) :
    (Error × Option NativeHandle) × List Event :=
  match rawHandle with
  | none => ((Error.BAD_BUFFER, none), [])
  | some raw =>
    let bufferHandle := env.cloneR raw
    let error := if bufferHandle = none then Error.NO_RESOURCES else Error.NONE
    let result := env.gbmRegisterR bufferHandle
    if result ≠ 0 then
      ((Error.NO_RESOURCES, none), [Event.gbmRegister bufferHandle])
    else
      ((error, bufferHandle), [Event.gbmRegister bufferHandle])

/-- Model of `V2_0::Mapper::freeBuffer`: null handle → `BAD_BUFFER`; otherwise
`gbm_mod_unregister`, reporting `UNSUPPORTED` on a non-zero result and
releasing the handle (close + delete) on success. -/
def freeBuffer2 (env : DriverEnv) (buffer : Option NativeHandle) :
    Error × List Event :=
  match buffer with
  | none => (Error.BAD_BUFFER, [])
  | some h =>
    if env.gbmUnregisterR h ≠ 0 then
      (Error.UNSUPPORTED, [Event.gbmUnregister h])
    else
      (Error.NONE, [Event.gbmUnregister h])

/-- Model of `V2_0::Mapper::lock`: null buffer → `BAD_BUFFER`; a `getFenceFd` error
is returned with no wait and no driver call; otherwise wait forever on the
fence, then `gbm_mod_lock` with the cast usage and the access rectangle:
non-zero result → `UNSUPPORTED`, else `NONE` with the mapped pointer. -/
def lock2 (env : DriverEnv) (buffer : Option NativeHandle) (cpuUsage : Nat)
    (accessRegion : Rect) (acquireFence : Option NativeHandle) :
    (Error × Option Nat) × List Event :=
  match buffer with
  | none => ((Error.BAD_BUFFER, none), [])
  | some h =>
    match getFenceFd env acquireFence with
    | Except.error e => ((e, none), [])
    | Except.ok fd =>
      let usage := lockUsage cpuUsage
      let p := env.gbmLockR h usage accessRegion.left accessRegion.top
        accessRegion.width accessRegion.height
      let events := [Event.waitFence fd,
        Event.gbmLock h usage accessRegion.left accessRegion.top
          accessRegion.width accessRegion.height]
      if p.1 ≠ 0 then ((Error.UNSUPPORTED, none), events)
      else ((Error.NONE, some p.2), events)

/-- Field-by-field copy of `android_ycbcr` into the HIDL `YCbCrLayout`
performed on the `lockYCbCr` success path. -/
def layoutOfYcbcr (c : AndroidYcbcr) : YCbCrLayout :=
  { y := c.y, cb := c.cb, cr := c.cr,
    yStride := c.ystride, cStride := c.cstride, chromaStep := c.chroma_step }

/-- Model of `V2_0::Mapper::lockYCbCr`: like `lock2` but through
`gbm_mod_lock_ycbcr`, returning a planar layout. -/
def lockYCbCr2 (env : DriverEnv) (buffer : Option NativeHandle)
    (cpuUsage : Nat) (accessRegion : Rect)
    (acquireFence : Option NativeHandle) :
    (Error × YCbCrLayout) × List Event :=
  match buffer with
  | none => ((Error.BAD_BUFFER, YCbCrLayout.empty), [])
  | some h =>
    match getFenceFd env acquireFence with
    | Except.error e => ((e, YCbCrLayout.empty), [])
    | Except.ok fd =>
      let usage := lockUsage cpuUsage
      let p := env.gbmLockYcbcrR h usage accessRegion.left accessRegion.top
        accessRegion.width accessRegion.height
      let events := [Event.waitFence fd,
        Event.gbmLockYcbcr h usage accessRegion.left accessRegion.top
          accessRegion.width accessRegion.height]
      if p.1 ≠ 0 then ((Error.UNSUPPORTED, YCbCrLayout.empty), events)
      else ((Error.NONE, layoutOfYcbcr p.2), events)

/-- Model of `V2_0::Mapper::unlock`: null buffer → `BAD_BUFFER`; `gbm_mod_unlock`
failure → `UNSUPPORTED`; on success `NONE` with the release-fence handle
built from the dup of `Fence::NO_FENCE` (i.e. a null handle). -/
def unlock2 (env : DriverEnv) (buffer : Option NativeHandle) :
    (Error × Option NativeHandle) × List Event :=
  match buffer with
  | none => ((Error.BAD_BUFFER, none), [])
  | some h =>
    if env.gbmUnlockR h ≠ 0 then
      ((Error.UNSUPPORTED, none), [Event.gbmUnlock h])
    else
      ((Error.NONE, getFenceHandle noFenceDup), [Event.gbmUnlock h])

/-! ### Mapper 4.0 (`src/graphics/mapper/4.0/Mapper.cpp`, DRM-backed) -/

/-- Model of `V4_0::Mapper::createDescriptor`: same validation as 2.0, then
`::android::gralloc4::encodeBufferDescriptorInfo`; a non-zero encode
result downgrades the error to `BAD_VALUE`. -/
def createDescriptor4 (env : DriverEnv) (info : BufferDescriptorInfo) :
    Error × BufferDescriptor :=
  let error :=
    if info.width = 0 ∨ info.height = 0 ∨ info.layerCount = 0 then
      Error.BAD_VALUE
    else if info.layerCount ≠ 1 then
      Error.UNSUPPORTED
    else if info.format = 0 then
      Error.BAD_VALUE
    else
      Error.NONE
  if error = Error.NONE then
    match env.encodeBufferDescriptorInfoR info with
    | some d => (Error.NONE, d)
    | none => (Error.BAD_VALUE, [])
  else (error, [])

/-- Model of `V4_0::Mapper::importBuffer`: identical shape to 2.0 but registering the
clone through `drm_register`. -/
def importBuffer4 (env : DriverEnv) (rawHandle : Option NativeHandle) :
    (Error × Option NativeHandle) × List Event :=
  match rawHandle with
  | none => ((Error.BAD_BUFFER, none), [])
  | some raw =>
    let bufferHandle := env.cloneR raw
    let error := if bufferHandle = none then Error.NO_RESOURCES else Error.NONE
    let result := env.drmRegisterR bufferHandle
    if result ≠ 0 then
      ((Error.NO_RESOURCES, none), [Event.drmRegister bufferHandle])
    else
      ((error, bufferHandle), [Event.drmRegister bufferHandle])

/-- Model of `V4_0::Mapper::freeBuffer`: null handle → `BAD_BUFFER`; otherwise
`drm_free` is called with its result ignored, the handle is released, and
the method returns `NONE` unconditionally. -/
def freeBuffer4 (env : DriverEnv) (buffer : Option NativeHandle) :
    Error × List Event :=
  match buffer with
  | none => (Error.BAD_BUFFER, [])
  | some h => (Error.NONE, [Event.drmFree h])

/-- Model of `V4_0::Mapper::lock`: `cpuUsage` and `accessRegion` are unused
(commented-out parameters in the source); after the fence wait the driver is
called as `drm_lock(bufferHandle, &data)` with only the buffer handle. -/
def lock4 (env : DriverEnv) (buffer : Option NativeHandle) (cpuUsage : Nat)
    (accessRegion : Rect) (acquireFence : Option NativeHandle) :
    (Error × Option Nat) × List Event :=
  match buffer with
  | none => ((Error.BAD_BUFFER, none), [])
  | some h =>
    match getFenceFd env acquireFence with
    | Except.error e => ((e, none), [])
    | Except.ok fd =>
      let p := env.drmLockR h
      let events := [Event.waitFence fd, Event.drmLock h]
      if p.1 ≠ 0 then ((Error.UNSUPPORTED, none), events)
      else ((Error.NONE, some p.2), events)

/-- Model of `V4_0::Mapper::unlock`: null buffer → `BAD_BUFFER`; `drm_unlock`
failure → `UNSUPPORTED`; on success `NONE` with the release-fence handle
built from the dup of `Fence::NO_FENCE` (i.e. a null handle). -/
def unlock4 (env : DriverEnv) (buffer : Option NativeHandle) :
    (Error × Option NativeHandle) × List Event :=
  match buffer with
  | none => ((Error.BAD_BUFFER, none), [])
  | some h =>
    if env.drmUnlockR h ≠ 0 then
      ((Error.UNSUPPORTED, none), [Event.drmUnlock h])
    else
      ((Error.NONE, getFenceHandle noFenceDup), [Event.drmUnlock h])

/-- Model of `V4_0::Mapper::flushLockedBuffer`: translated from its own body in the
source (lines 232-252), which performs the same null check, the same
`drm_unlock` call and the same release-fence construction as `unlock`. -/
def flushLockedBuffer4 (env : DriverEnv) (buffer : Option NativeHandle) :
    (Error × Option NativeHandle) × List Event :=
  match buffer with
  | none => ((Error.BAD_BUFFER, none), [])
  | some h =>
    if env.drmUnlockR h ≠ 0 then
      ((Error.UNSUPPORTED, none), [Event.drmUnlock h])
    else
      ((Error.NONE, getFenceHandle noFenceDup), [Event.drmUnlock h])

/-! ### Mapper 4.0 metadata accessors -/

/-- HIDL `MetadataType`: a name string and an `int64_t` value. -/
structure MetadataType where
  name : String
  value : Int
  deriving DecidableEq, Repr

/-- Model of `GRALLOC4_STANDARD_METADATA_TYPE`, the name of the standard metadata
type family (gralloc4 library constant). -/
def standardMetadataTypeName : String :=
  "android.hardware.graphics.common.StandardMetadataType"

/-- Model of `android::gralloc4::isStandardMetadataType`: name comparison against the
standard family name. -/
def isStandardMetadataType (t : MetadataType) : Bool :=
  t.name == standardMetadataTypeName

/-- Model of `StandardMetadataType::DATASPACE` has enum value 17 in
`android.hardware.graphics.common`. -/
def standardMetadataTypeDATASPACE : Int := 17

/-- The gralloc4 `MetadataType_Dataspace` constant. -/
def MetadataType_Dataspace : MetadataType :=
  { name := standardMetadataTypeName, value := standardMetadataTypeDATASPACE }

/-- Model of `Dataspace::UNKNOWN` = 0. -/
def dataspaceUNKNOWN : Nat := 0

/-- Model of `android::gralloc4::encodeDataspace`: the dataspace's `int32_t` value
serialised as 4 little-endian bytes. -/
def encodeDataspace (d : Nat) : List Nat :=
  [d % 256, d / 256 % 256, d / 65536 % 256, d / 16777216 % 256]

/-- Model of `V4_0::Mapper::get`: null buffer → `BAD_BUFFER` with empty metadata;
the standard `DATASPACE` metadata type → `NONE` with the encoding of
`Dataspace::UNKNOWN`; anything else → `UNSUPPORTED` with empty metadata. -/
def get4 (buffer : Option NativeHandle) (metadataType : MetadataType) :
    Error × List Nat :=
  match buffer with
  | none => (Error.BAD_BUFFER, [])
  | some _ =>
    if isStandardMetadataType metadataType &&
        metadataType.value == standardMetadataTypeDATASPACE then
      (Error.NONE, encodeDataspace dataspaceUNKNOWN)
    else
      (Error.UNSUPPORTED, [])

/-- HIDL `MetadataTypeDescription` (element type of the
`listSupportedMetadataTypes` result). -/
structure MetadataTypeDescription where
  metadataType : MetadataType
  description : String
  isGettable : Bool
  isSettable : Bool
  deriving DecidableEq, Repr

/-- Model of `V4_0::Mapper::listSupportedMetadataTypes`: always `NONE` with a
default-constructed (empty) vector of descriptions. -/
def listSupportedMetadataTypes4 : Error × List MetadataTypeDescription :=
  (Error.NONE, [])

/-! ### Concrete fixtures used by witnesses and counterexamples -/

/-- A sample non-null native handle (one fd, value 3). -/
def h0 : NativeHandle := { numFds := 1, numInts := 0, data := [3] }

/-- An invalid acquire-fence handle carrying two fds. -/
def fence2fds : NativeHandle := { numFds := 2, numInts := 0, data := [3, 4] }

/-- A driver environment in which every native call succeeds. -/
def envOk : DriverEnv where
  cloneR := fun h => some h
  dupR := fun fd => fd
  gbmRegisterR := fun _ => 0
  gbmUnregisterR := fun _ => 0
  gbmLockR := fun _ _ _ _ _ _ => (0, 42)
  gbmLockYcbcrR := fun _ _ _ _ _ _ =>
    (0, { y := 1, cb := 2, cr := 3, ystride := 4, cstride := 5, chroma_step := 6 })
  gbmUnlockR := fun _ => 0
  drmRegisterR := fun _ => 0
  drmFreeR := fun _ => 0
  drmLockR := fun _ => (0, 42)
  drmUnlockR := fun _ => 0
  encodeBufferDescriptorInfoR := fun _ => some [7]

/-- A driver environment in which every native call fails. -/
def envFail : DriverEnv where
  cloneR := fun _ => none
  dupR := fun _ => -1
  gbmRegisterR := fun _ => -22
  gbmUnregisterR := fun _ => -22
  gbmLockR := fun _ _ _ _ _ _ => (-22, 0)
  gbmLockYcbcrR := fun _ _ _ _ _ _ =>
    (-22, { y := 0, cb := 0, cr := 0, ystride := 0, cstride := 0, chroma_step := 0 })
  gbmUnlockR := fun _ => -22
  drmRegisterR := fun _ => -22
  drmFreeR := fun _ => -22
  drmLockR := fun _ => (-22, 0)
  drmUnlockR := fun _ => -22
  encodeBufferDescriptorInfoR := fun _ => none

/-- A sample access rectangle. -/
def rectA : Rect := { left := 0, top := 0, width := 1, height := 1 }

/-- A second, different access rectangle. -/
def rectB : Rect := { left := 5, top := 6, width := 7, height := 8 }

/-- A descriptor info whose usage bits all lie outside the valid mask. -/
def infoWildUsage : BufferDescriptorInfo :=
  { width := 64, height := 32, layerCount := 1, format := 1,
    usage := (1 <<< 25) ||| (1 <<< 40) }

/-! ### Claims -/

/-- C1 (counterexample): in the 4.0 mapper, a failing driver-level
unregister (`drm_free` result `-22`) does not make `freeBuffer` report
`UNSUPPORTED` — the result is `NONE` because the driver result is ignored,
so the claim does not hold for the 4.0 mapper. -/
theorem C1_counterexample :
    envFail.drmFreeR h0 ≠ 0 ∧
    (freeBuffer4 envFail (some h0)).1 = Error.NONE ∧
    (freeBuffer4 envFail (some h0)).1 ≠ Error.UNSUPPORTED := by
  decide

/-- C1 (amended): `freeBuffer` reports `BAD_BUFFER` for a null handle in
both mappers; for a non-null handle the 2.0 mapper reports `UNSUPPORTED`
exactly when `gbm_mod_unregister` fails and `NONE` otherwise, while the 4.0
mapper always reports `NONE`, ignoring the `drm_free` result. -/
theorem C1_freeBuffer (env : DriverEnv) (h : NativeHandle) :
    freeBuffer2 env none = (Error.BAD_BUFFER, []) ∧
    freeBuffer4 env none = (Error.BAD_BUFFER, []) ∧
    freeBuffer2 env (some h) =
      ((if env.gbmUnregisterR h ≠ 0 then Error.UNSUPPORTED else Error.NONE),
        [Event.gbmUnregister h]) ∧
    freeBuffer4 env (some h) = (Error.NONE, [Event.drmFree h]) := by
  refine ⟨rfl, rfl, ?_, rfl⟩
  simp only [freeBuffer2]
  split <;> simp_all

/-- C2 (counterexample): the 4.0 mapper's `lock` does not pass the
caller-supplied access rectangle and usage mask to the driver — two calls
differing only in usage and access rectangle make the identical driver
request (`drm_lock` with just the buffer handle) and produce identical
results and traces. -/
theorem C2_counterexample :
    rectA ≠ rectB ∧ (1 : Nat) ≠ 999 ∧
    lock4 envOk (some h0) 1 rectA none = lock4 envOk (some h0) 999 rectB none ∧
    (lock4 envOk (some h0) 1 rectA none).2 =
      [Event.waitFence (-1), Event.drmLock h0] := by
  decide

/-- C2 (amended): with a non-null buffer and an acquire fence accepted by
`getFenceFd`, `lock`/`lockYCbCr` first wait on the fence and then call the
driver — in 2.0 passing the access rectangle and the (32-bit-cast) usage
mask to `gbm_mod_lock`/`gbm_mod_lock_ycbcr`, in 4.0 passing only the buffer
handle to `drm_lock` (rectangle and usage are ignored) — reporting
`UNSUPPORTED` when the driver call fails and otherwise `NONE` with the
driver-provided pointer (or planar layout). -/
theorem C2_lock (env : DriverEnv) (h : NativeHandle) (cpuUsage : Nat)
    (r : Rect) (fence : Option NativeHandle) (fd : Int)
    (hfd : getFenceFd env fence = Except.ok fd) :
    lock2 env (some h) cpuUsage r fence =
      ((if (env.gbmLockR h (lockUsage cpuUsage) r.left r.top r.width r.height).1 ≠ 0
          then (Error.UNSUPPORTED, none)
          else (Error.NONE,
            some (env.gbmLockR h (lockUsage cpuUsage) r.left r.top r.width r.height).2)),
        [Event.waitFence fd,
         Event.gbmLock h (lockUsage cpuUsage) r.left r.top r.width r.height]) ∧
    lockYCbCr2 env (some h) cpuUsage r fence =
      ((if (env.gbmLockYcbcrR h (lockUsage cpuUsage) r.left r.top r.width r.height).1 ≠ 0
          then (Error.UNSUPPORTED, YCbCrLayout.empty)
          else (Error.NONE,
            layoutOfYcbcr
              (env.gbmLockYcbcrR h (lockUsage cpuUsage) r.left r.top r.width r.height).2)),
        [Event.waitFence fd,
         Event.gbmLockYcbcr h (lockUsage cpuUsage) r.left r.top r.width r.height]) ∧
    lock4 env (some h) cpuUsage r fence =
      ((if (env.drmLockR h).1 ≠ 0 then (Error.UNSUPPORTED, none)
          else (Error.NONE, some (env.drmLockR h).2)),
        [Event.waitFence fd, Event.drmLock h]) := by
  refine ⟨?_, ?_, ?_⟩ <;>
    · simp only [lock2, lockYCbCr2, lock4, hfd]
      split <;> simp_all

/-- C2 (witness): a concrete 2.0 lock with no acquire fence waits on the
no-fence fd `-1` and passes the rectangle and usage to the driver. -/
theorem C2_lock_witness :
    lock2 envOk (some h0) 0 rectA none =
      ((Error.NONE, some 42),
        [Event.waitFence (-1), Event.gbmLock h0 (lockUsage 0) 0 0 1 1]) := by
  have := (C2_lock envOk h0 0 rectA none (-1) rfl).1
  simpa [envOk, rectA] using this

/-- C3: `createDescriptor` reports `BAD_VALUE` whenever width, height or
layerCount is zero, and `UNSUPPORTED` for any otherwise-valid info whose
layerCount is non-zero and different from 1, in both mappers (the
zero-dimension rule is checked first, so it takes precedence). -/
theorem C3_createDescriptor_validation (env : DriverEnv)
    (info : BufferDescriptorInfo) :
    ((info.width = 0 ∨ info.height = 0 ∨ info.layerCount = 0) →
      (createDescriptor2 info).1 = Error.BAD_VALUE ∧
      (createDescriptor4 env info).1 = Error.BAD_VALUE) ∧
    (info.width ≠ 0 → info.height ≠ 0 → info.layerCount ≠ 0 →
      info.layerCount ≠ 1 →
      (createDescriptor2 info).1 = Error.UNSUPPORTED ∧
      (createDescriptor4 env info).1 = Error.UNSUPPORTED) := by
  constructor
  · intro hz
    rcases hz with hw | hh | hl
    · simp [createDescriptor2, createDescriptor4, hw]
    · simp [createDescriptor2, createDescriptor4, hh]
    · simp [createDescriptor2, createDescriptor4, hl]
  · intro hw hh hl0 hl1
    simp [createDescriptor2, createDescriptor4, hw, hh, hl0, hl1]

/-- C3 (witness): width 0 gives `BAD_VALUE` and layerCount 2 gives
`UNSUPPORTED` on concrete descriptor infos. -/
theorem C3_witness :
    (createDescriptor2
      { width := 0, height := 1, layerCount := 1, format := 1, usage := 0 }).1
      = Error.BAD_VALUE ∧
    (createDescriptor4 envOk
      { width := 1, height := 1, layerCount := 2, format := 1, usage := 0 }).1
      = Error.UNSUPPORTED :=
  ⟨((C3_createDescriptor_validation envOk
      { width := 0, height := 1, layerCount := 1, format := 1, usage := 0 }).1
      (Or.inl rfl)).1,
   ((C3_createDescriptor_validation envOk
      { width := 1, height := 1, layerCount := 2, format := 1, usage := 0 }).2
      (by decide) (by decide) (by decide) (by decide)).2⟩

/-- C4 (counterexample): a `get` call with a null buffer handle and the
`DATASPACE` metadata type returns `BAD_BUFFER`, not `NONE`, so the claim
does not hold for every call. -/
theorem C4_counterexample :
    get4 none MetadataType_Dataspace = (Error.BAD_BUFFER, []) ∧
    Error.BAD_BUFFER ≠ Error.NONE := by
  constructor
  · rfl
  · decide

/-- C4 (amended): for a null buffer handle `get` returns `BAD_BUFFER`;
for a non-null buffer handle it returns `NONE` with the encoding of
`Dataspace::UNKNOWN` on the `DATASPACE` metadata type and `UNSUPPORTED`
with empty metadata on every other metadata type. -/
theorem C4_get_metadata (h : NativeHandle) (t : MetadataType) :
    get4 none t = (Error.BAD_BUFFER, []) ∧
    get4 (some h) MetadataType_Dataspace =
      (Error.NONE, encodeDataspace dataspaceUNKNOWN) ∧
    (t ≠ MetadataType_Dataspace →
      get4 (some h) t = (Error.UNSUPPORTED, [])) := by
  refine ⟨rfl, rfl, fun hne => ?_⟩
  have hcond : ¬(isStandardMetadataType t &&
      t.value == standardMetadataTypeDATASPACE) = true := by
    intro hc
    rw [Bool.and_eq_true, beq_iff_eq] at hc
    apply hne
    obtain ⟨hname, hval⟩ := hc
    rw [isStandardMetadataType, beq_iff_eq] at hname
    cases t
    simp_all [MetadataType_Dataspace]
  simp [get4, hcond]

/-- C4 (witness): a non-standard metadata type with the `DATASPACE` value
on a non-null buffer gives `UNSUPPORTED`. -/
theorem C4_witness :
    get4 (some h0) { name := "vendor.qti.Custom", value := 17 } =
      (Error.UNSUPPORTED, []) :=
  (C4_get_metadata h0 { name := "vendor.qti.Custom", value := 17 }).2.2
    (by decide)

/-- C5: whenever the driver unlock call succeeds on a non-null buffer
handle, `unlock` returns `NONE` together with a release-fence handle that
carries no fence file descriptor (the dup of `Fence::NO_FENCE` yields `-1`,
so the constructed handle is null), in both mappers. -/
theorem C5_unlock_release_fence (env : DriverEnv) (h : NativeHandle)
    (h2 : env.gbmUnlockR h = 0) (h4 : env.drmUnlockR h = 0) :
    unlock2 env (some h) = ((Error.NONE, none), [Event.gbmUnlock h]) ∧
    unlock4 env (some h) = ((Error.NONE, none), [Event.drmUnlock h]) ∧
    handleFdCount (unlock2 env (some h)).1.2 = 0 ∧
    handleFdCount (unlock4 env (some h)).1.2 = 0 := by
  simp [unlock2, unlock4, h2, h4, getFenceHandle, noFenceDup, handleFdCount]

/-- C5 (witness): a concrete successful unlock in both mappers. -/
theorem C5_witness :
    unlock2 envOk (some h0) = ((Error.NONE, none), [Event.gbmUnlock h0]) ∧
    unlock4 envOk (some h0) = ((Error.NONE, none), [Event.drmUnlock h0]) :=
  ⟨(C5_unlock_release_fence envOk h0 rfl rfl).1,
   (C5_unlock_release_fence envOk h0 rfl rfl).2.1⟩

/-- C6: for any descriptor info with non-zero width and height, layerCount
1 and non-zero format, `createDescriptor` returns `NONE` with the encoded
descriptor regardless of the usage bits (which are unconstrained here); in
4.0 this needs the external gralloc4 encoder to succeed on the info, which
it does for every input. -/
theorem C6_createDescriptor_usage (env : DriverEnv)
    (info : BufferDescriptorInfo) (d : BufferDescriptor)
    (hw : info.width ≠ 0) (hh : info.height ≠ 0) (hl : info.layerCount = 1)
    (hf : info.format ≠ 0)
    (henc : env.encodeBufferDescriptorInfoR info = some d) :
    createDescriptor2 info = (Error.NONE, grallocEncodeBufferDescriptor info) ∧
    createDescriptor4 env info = (Error.NONE, d) := by
  simp [createDescriptor2, createDescriptor4, hw, hh, hl, hf, henc]

/-- C6 (witness): a concrete info whose usage bits all lie outside the
valid usage mask is still accepted by both mappers. -/
theorem C6_witness :
    infoWildUsage.usage &&& getValidBufferUsageMask = 0 ∧
    createDescriptor2 infoWildUsage =
      (Error.NONE, grallocEncodeBufferDescriptor infoWildUsage) ∧
    createDescriptor4 envOk infoWildUsage = (Error.NONE, [7]) :=
  ⟨by decide,
   (C6_createDescriptor_usage envOk infoWildUsage [7]
      (by decide) (by decide) (by decide) (by decide) rfl).1,
   (C6_createDescriptor_usage envOk infoWildUsage [7]
      (by decide) (by decide) (by decide) (by decide) rfl).2⟩

/-- C7: `importBuffer` with a null raw handle returns `BAD_BUFFER` with a
null out-handle and performs no driver call at all (empty event trace, so
in particular no registration), in both mappers. -/
theorem C7_importBuffer_null (env : DriverEnv) :
    importBuffer2 env none = ((Error.BAD_BUFFER, none), []) ∧
    importBuffer4 env none = ((Error.BAD_BUFFER, none), []) :=
  ⟨rfl, rfl⟩

/-- C8: a lock call (2.0 `lock`/`lockYCbCr` or 4.0 `lock`) on a non-null
buffer whose acquire-fence handle carries more than one fd returns
`BAD_VALUE` with an empty event trace — no fence wait and no driver lock
call happen. -/
theorem C8_lock_invalid_fence (env : DriverEnv) (h : NativeHandle)
    (fh : NativeHandle) (cpuUsage : Nat) (r : Rect)
    (hn : fh.numFds > 1) :
    getFenceFd env (some fh) = Except.error Error.BAD_VALUE ∧
    lock2 env (some h) cpuUsage r (some fh) = ((Error.BAD_VALUE, none), []) ∧
    lockYCbCr2 env (some h) cpuUsage r (some fh) =
      ((Error.BAD_VALUE, YCbCrLayout.empty), []) ∧
    lock4 env (some h) cpuUsage r (some fh) = ((Error.BAD_VALUE, none), []) := by
  have hfence : getFenceFd env (some fh) = Except.error Error.BAD_VALUE := by
    simp [getFenceFd, hn]
  refine ⟨hfence, ?_, ?_, ?_⟩ <;> simp [lock2, lockYCbCr2, lock4, hfence]

/-- C8 (witness): a concrete two-fd acquire fence is rejected with
`BAD_VALUE` and an empty trace. -/
theorem C8_witness :
    lock2 envOk (some h0) 0 rectA (some fence2fds) =
      ((Error.BAD_VALUE, none), []) :=
  (C8_lock_invalid_fence envOk h0 fence2fds 0 rectA (by decide)).2.1

/-- C9: the 4.0 mapper's `flushLockedBuffer` is behaviorally identical to
`unlock`: for every driver environment and buffer argument both make the
same `drm_unlock` call and return the same error and release-fence
handle. -/
theorem C9_flush_equals_unlock (env : DriverEnv)
    (buffer : Option NativeHandle) :
    flushLockedBuffer4 env buffer = unlock4 env buffer := by
  cases buffer <;> rfl

/-- C10: the 4.0 mapper's `listSupportedMetadataTypes` always returns
`NONE` with an empty description list — in particular the `DATASPACE`
metadata type is not listed — even though `get` succeeds on `DATASPACE`
for any non-null buffer. -/
theorem C10_listSupportedMetadataTypes_empty (h : NativeHandle) :
    listSupportedMetadataTypes4 = (Error.NONE, []) ∧
    (listSupportedMetadataTypes4.2.map fun d => d.metadataType) = [] ∧
    get4 (some h) MetadataType_Dataspace =
      (Error.NONE, encodeDataspace dataspaceUNKNOWN) :=
  ⟨rfl, rfl, rfl⟩

end HardwareArv
